import Mathlib

/-!
Verification of the Kodi addon dev-kit binding layer
(`xbmc/addons/kodi-addon-dev-kit/include/kodi/AddonBase.h`).

Shallow embedding conventions:
* C pointers / `KODI_HANDLE` values are modelled as `Nat`, with `0` playing
  the role of the null pointer.
* The set of live addon-side objects is an association-list heap from
  addresses to records; deleting an object erases its binding.
* Addon-author virtual hooks (overrides of `CreateInstance` /
  `DestroyInstance`) are arbitrary Lean functions passed as parameters.
* A C++ `throw std::logic_error` is modelled as a `fatal` result carrying
  the message string; dereferencing an address with no binding (undefined
  behaviour in the source) is modelled as a distinct `undef` result.
-/

/-- Association-list heap from addresses (`Nat`, `0` = null) to records. -/
abbrev SHeap (α : Type) := List (Nat × α)

/-- Look up the record stored at address `a`, if any. -/
def SHeap.find {α : Type} : SHeap α → Nat → Option α
  | [], _ => none
  | (k, v) :: t, a => if k = a then some v else SHeap.find t a

/-- Overwrite the record stored at address `a` (in-place update). -/
def SHeap.update {α : Type} : SHeap α → Nat → α → SHeap α
  | [], _, _ => []
  | (k, v) :: t, a, w => if k = a then (k, w) :: t else (k, v) :: SHeap.update t a w

/-- Delete the binding at address `a` (models `delete ptr`). -/
def SHeap.erase {α : Type} : SHeap α → Nat → SHeap α
  | [], _ => []
  | (k, v) :: t, a => if k = a then t else (k, v) :: SHeap.erase t a

/-- Bind a fresh record at address `a` (models `new`). -/
def SHeap.insert {α : Type} (h : SHeap α) (a : Nat) (v : α) : SHeap α :=
  (a, v) :: h

/-- An address not yet bound in the heap: one past the largest bound address. -/
def SHeap.fresh {α : Type} (h : SHeap α) : Nat :=
  (h.map Prod.fst).foldr max 0 + 1

/- Modelled from the spec: the `ADDON_STATUS` enumeration lives in the
external `c-api/addon_base.h` header, which is not part of this repository
snapshot.  The spec lists the codes OK, LOST_CONNECTION, NEED_RESTART,
NEED_SETTINGS, UNKNOWN, PERMANENT_FAILURE, NOT_IMPLEMENTED; they are embedded
as distinct `Int` values in declaration order with default C enum numbering
(the enum is int-backed, so out-of-range values exist). -/

def ADDON_STATUS_OK : Int := 0

def ADDON_STATUS_LOST_CONNECTION : Int := 1

def ADDON_STATUS_NEED_RESTART : Int := 2

def ADDON_STATUS_NEED_SETTINGS : Int := 3

def ADDON_STATUS_UNKNOWN : Int := 4

def ADDON_STATUS_PERMANENT_FAILURE : Int := 5

def ADDON_STATUS_NOT_IMPLEMENTED : Int := 6

/-- The list of defined `ADDON_STATUS` codes (declaration order). -/
def definedAddonStatuses : List Int :=
  [ADDON_STATUS_OK, ADDON_STATUS_LOST_CONNECTION, ADDON_STATUS_NEED_RESTART,
   ADDON_STATUS_NEED_SETTINGS, ADDON_STATUS_UNKNOWN,
   ADDON_STATUS_PERMANENT_FAILURE, ADDON_STATUS_NOT_IMPLEMENTED]

/-- Embeds `kodi::TranslateAddonStatus` (AddonBase.h lines 652-674): a switch
on the status code with a catch-all default of "Unknown". -/
def TranslateAddonStatus (status : Int) : String :=
  if status = ADDON_STATUS_OK then "OK"
  else if status = ADDON_STATUS_LOST_CONNECTION then "Lost Connection"
  else if status = ADDON_STATUS_NEED_RESTART then "Need Restart"
  else if status = ADDON_STATUS_NEED_SETTINGS then "Need Settings"
  else if status = ADDON_STATUS_UNKNOWN then "Unknown error"
  else if status = ADDON_STATUS_PERMANENT_FAILURE then "Permanent failure"
  else if status = ADDON_STATUS_NOT_IMPLEMENTED then "Not implemented"
  else "Unknown"

/-- Embeds the data fields of `kodi::addon::IAddonInstance` (AddonBase.h
lines 64-85): a type tag `m_type`, the Kodi version string, and the mutable
identifier `m_id` stamped by the dispatcher. -/
structure IAddonInstance where
  m_type : Int
  m_kodiVersion : String
  m_id : String
deriving DecidableEq

/-- Embeds the global fields of `AddonGlobalInterface` used by the
dispatchers: `firstKodiInstance`, `globalSingleInstance` and `addonBase`,
each an opaque handle (`0` = null). -/
structure AddonGlobalInterface where
  firstKodiInstance : Nat
  globalSingleInstance : Nat
  addonBase : Nat
deriving DecidableEq

/-- The shape of a virtual `CreateInstance` hook: it receives the instance
type tag, instance id, Kodi-side handle, version string, the current value of
the `addonInstance` out-parameter and the heap, and returns the status code,
the new out-parameter value and the updated heap. -/
abbrev CreateHook :=
  Int → String → Nat → String → Nat → SHeap IAddonInstance →
    Int × Nat × SHeap IAddonInstance

/-- Embeds the default virtual `IAddonInstance::CreateInstance` (AddonBase.h
lines 73-80): always returns `ADDON_STATUS_NOT_IMPLEMENTED` and leaves the
out-parameter and heap untouched. -/
def IAddonInstance.CreateInstance : CreateHook :=
  fun _ _ _ _ addonInstance0 heap => (ADDON_STATUS_NOT_IMPLEMENTED, addonInstance0, heap)

/-- Embeds the default `CAddonBase::CreateInstance` (AddonBase.h lines
276-299): if the Kodi-side handle equals the load-time `firstKodiInstance`,
a global single instance is configured, and its recorded type tag equals the
requested one, return that instance with `ADDON_STATUS_OK`; otherwise return
`ADDON_STATUS_UNKNOWN` leaving the out-parameter unchanged.  (A non-null
`globalSingleInstance` with no heap binding is a dangling pointer, undefined
behaviour in the source; the model returns `ADDON_STATUS_UNKNOWN` there.) -/
def CAddonBase.CreateInstance (iface : AddonGlobalInterface) : CreateHook :=
  fun instanceType _ kodiInstance _ addonInstance0 heap =>
    if iface.firstKodiInstance = kodiInstance ∧ iface.globalSingleInstance ≠ 0 then
      match SHeap.find heap iface.globalSingleInstance with
      | some g =>
        if g.m_type = instanceType then (ADDON_STATUS_OK, iface.globalSingleInstance, heap)
        else (ADDON_STATUS_UNKNOWN, addonInstance0, heap)
      | none => (ADDON_STATUS_UNKNOWN, addonInstance0, heap)
    else (ADDON_STATUS_UNKNOWN, addonInstance0, heap)

/-- Message of the `std::logic_error` thrown when creation leaves a null
instance pointer (AddonBase.h lines 365-366). -/
def emptyInstanceMsg : String :=
  "kodi::addon::CAddonBase CreateInstance returns a empty instance pointer!"

/-- Message of the `std::logic_error` thrown when the created instance's type
tag differs from the requested one (AddonBase.h lines 369-370). -/
def createTypeMismatchMsg : String :=
  "kodi::addon::CAddonBase CreateInstance with difference on given and returned instance type!"

/-- Message of the `std::logic_error` thrown when destruction is asked with a
type tag differing from the instance's recorded one (AddonBase.h
lines 390-391). -/
def destroyTypeMismatchMsg : String :=
  "kodi::addon::CAddonBase DestroyInstance called with difference on given and present instance type!"

/-- Result of a dispatched creation call: a thrown logic error, a returned
status with the final out-parameter handle and heap, or undefined behaviour
(dereference of a dangling handle). -/
inductive CreateResult
  | fatal (msg : String)
  | ok (status : Int) (addonInstance : Nat) (heap : SHeap IAddonInstance)
  | undef
deriving DecidableEq

/-- Embeds the hook-chaining part of `ADDONBASE_CreateInstance` (AddonBase.h
lines 358-363): status starts as `ADDON_STATUS_NOT_IMPLEMENTED`; a non-null
parent's hook runs first; the base object's hook runs exactly when the status
is still `ADDON_STATUS_NOT_IMPLEMENTED` afterwards. -/
def runCreateHooks (parentHook : Option CreateHook) (baseHook : CreateHook)
    (instanceType : Int) (instanceID : String) (kodiInstance : Nat) (version : String)
    (addonInstance0 : Nat) (heap : SHeap IAddonInstance) :
    Int × Nat × SHeap IAddonInstance :=
  let r1 := match parentHook with
    | some parent => parent instanceType instanceID kodiInstance version addonInstance0 heap
    | none => (ADDON_STATUS_NOT_IMPLEMENTED, addonInstance0, heap)
  if r1.1 = ADDON_STATUS_NOT_IMPLEMENTED then
    baseHook instanceType instanceID kodiInstance version r1.2.1 r1.2.2
  else r1

/-- Embeds the checking-and-stamping tail of `ADDONBASE_CreateInstance`
(AddonBase.h lines 364-375): throw on a null out-parameter, throw on a type
tag mismatch, otherwise stamp the instance id into the created object's
`m_id` field and return the hook's status. -/
def finishCreate (instanceType : Int) (instanceID : String) (status : Int)
    (handle : Nat) (heap : SHeap IAddonInstance) : CreateResult :=
  if handle = 0 then CreateResult.fatal emptyInstanceMsg
  else
    match SHeap.find heap handle with
    | none => CreateResult.undef
    | some obj =>
      if obj.m_type ≠ instanceType then CreateResult.fatal createTypeMismatchMsg
      else CreateResult.ok status handle
        (SHeap.update heap handle { obj with m_id := instanceID })

/-- Embeds `CAddonBase::ADDONBASE_CreateInstance` (AddonBase.h lines
349-376): run the parent-then-base hook chain, then check and stamp. -/
def ADDONBASE_CreateInstance (parentHook : Option CreateHook) (baseHook : CreateHook)
    (instanceType : Int) (instanceID : String) (kodiInstance : Nat) (version : String)
    (addonInstance0 : Nat) (heap : SHeap IAddonInstance) : CreateResult :=
  let r := runCreateHooks parentHook baseHook instanceType instanceID kodiInstance
    version addonInstance0 heap
  finishCreate instanceType instanceID r.1 r.2.1 r.2.2

/-- Result of a dispatched destruction call: a no-op, a thrown logic error,
undefined behaviour (dangling handle), or a performed destruction recording
the arguments passed to the base object's `DestroyInstance` hook and the heap
after the `delete`. -/
inductive DestroyResult
  | noop
  | fatal (msg : String)
  | undef
  | destroyed (hookInstanceType : Int) (hookInstanceID : String) (hookHandle : Nat)
      (heap : SHeap IAddonInstance)
deriving DecidableEq

/-- Embeds `CAddonBase::ADDONBASE_DestroyInstance` (AddonBase.h lines
378-393): only in multi-instance mode (`globalSingleInstance` null) and for a
handle different from the base object does it act; a matching type tag makes
it call the base object's `DestroyInstance` hook with the stored id and then
delete the instance, a differing tag throws. -/
def ADDONBASE_DestroyInstance (iface : AddonGlobalInterface)
    (heap : SHeap IAddonInstance) (instanceType : Int) (kodiInstance : Nat) :
    DestroyResult :=
  if iface.globalSingleInstance = 0 ∧ kodiInstance ≠ iface.addonBase then
    match SHeap.find heap kodiInstance with
    | none => DestroyResult.undef
    | some obj =>
      if obj.m_type = instanceType then
        DestroyResult.destroyed instanceType obj.m_id kodiInstance (SHeap.erase heap kodiInstance)
      else DestroyResult.fatal destroyTypeMismatchMsg
  else DestroyResult.noop

/-- Modelled from the spec: the host-side settings functions of
`AddonToKodiFuncTable_Addon` live in the external c-api header, not in this
repository snapshot.  Each checked getter returns a success flag and, when
the host writes a value, the written value (`none` models a null buffer for
the string call or an untouched output parameter for the others; per the
spec a successful call fills the output and a failing call does not). -/
structure AddonToKodiFuncTable_Addon where
  get_setting_string : String → Bool × Option String
  get_setting_int : String → Bool × Option Int
  get_setting_bool : String → Bool × Option Bool
  get_setting_float : String → Bool × Option Float

/-- Embeds `kodi::CheckSettingString` (AddonBase.h lines 516-530): call the
host getter; only when the returned buffer is non-null AND the flag is true
is the output assigned; the host's flag is returned either way. -/
def CheckSettingString (toKodi : AddonToKodiFuncTable_Addon) (settingName : String)
    (settingValue : String) : Bool × String :=
  let r := toKodi.get_setting_string settingName
  match r.2 with
  | some buffer => (r.1, if r.1 then buffer else settingValue)
  | none => (r.1, settingValue)

/-- Embeds `kodi::GetSettingString` (AddonBase.h lines 535-540): run the
checked getter on a default-constructed (empty) string and return the value,
ignoring the flag. -/
def GetSettingString (toKodi : AddonToKodiFuncTable_Addon) (settingName : String) : String :=
  (CheckSettingString toKodi settingName "").2

/-- Embeds `kodi::CheckSettingInt` (AddonBase.h lines 556-562): forward to
the host getter, which writes through the output pointer when it chooses to
and returns the flag. -/
def CheckSettingInt (toKodi : AddonToKodiFuncTable_Addon) (settingName : String)
    (settingValue : Int) : Bool × Int :=
  let r := toKodi.get_setting_int settingName
  (r.1, match r.2 with | some v => v | none => settingValue)

/-- Embeds `kodi::GetSettingInt` (AddonBase.h lines 567-572): run the checked
getter on `0` and return the value, ignoring the flag. -/
def GetSettingInt (toKodi : AddonToKodiFuncTable_Addon) (settingName : String) : Int :=
  (CheckSettingInt toKodi settingName 0).2

/-- Embeds `kodi::CheckSettingBoolean` (AddonBase.h lines 588-594). -/
def CheckSettingBoolean (toKodi : AddonToKodiFuncTable_Addon) (settingName : String)
    (settingValue : Bool) : Bool × Bool :=
  let r := toKodi.get_setting_bool settingName
  (r.1, match r.2 with | some v => v | none => settingValue)

/-- Embeds `kodi::GetSettingBoolean` (AddonBase.h lines 599-604): run the
checked getter on `false` and return the value, ignoring the flag. -/
def GetSettingBoolean (toKodi : AddonToKodiFuncTable_Addon) (settingName : String) : Bool :=
  (CheckSettingBoolean toKodi settingName false).2

/-- Embeds `kodi::CheckSettingFloat` (AddonBase.h lines 620-626). -/
def CheckSettingFloat (toKodi : AddonToKodiFuncTable_Addon) (settingName : String)
    (settingValue : Float) : Bool × Float :=
  let r := toKodi.get_setting_float settingName
  (r.1, match r.2 with | some v => v | none => settingValue)

/-- Embeds `kodi::GetSettingFloat` (AddonBase.h lines 631-636): run the
checked getter on `0.0` and return the value, ignoring the flag. -/
def GetSettingFloat (toKodi : AddonToKodiFuncTable_Addon) (settingName : String) : Float :=
  (CheckSettingFloat toKodi settingName 0.0).2

/-- The C value types for which AddonBase.h (lines 514-648) declares a
CheckSetting / GetSetting / SetSetting accessor triple, in declaration
order: string, int, boolean, float.  No unsigned accessor is declared. -/
def settingAccessorCTypes : List String :=
  ["string", "int", "boolean", "float"]

/-- The platform path separator chosen by the `TARGET_WINDOWS` preprocessor
branch (AddonBase.h lines 433-437). -/
def kodiPathSeparator (windows : Bool) : String :=
  if windows then "\\" else "/"

/-- Embeds `kodi::GetAddonPath` (AddonBase.h lines 422-441): `hostPath` is
the string returned by the host's `get_addon_path`; when `append` is
non-empty and does not already start with `'\\'` or `'/'`, the platform
separator is appended first, then `append`. -/
def GetAddonPath (windows : Bool) (hostPath : String) (append : String) : String :=
  if append = "" then hostPath
  else
    let ret1 := if append.front ≠ '\\' ∧ append.front ≠ '/' then
      hostPath ++ kodiPathSeparator windows else hostPath
    ret1 ++ append

/-- Embeds `kodi::GetBaseUserPath` (AddonBase.h lines 446-465): identical
append logic over the host's `get_base_user_path` result. -/
def GetBaseUserPath (windows : Bool) (hostPath : String) (append : String) : String :=
  if append = "" then hostPath
  else
    let ret1 := if append.front ≠ '\\' ∧ append.front ≠ '/' then
      hostPath ++ kodiPathSeparator windows else hostPath
    ret1 ++ append

/-- Embeds the pointer-and-flag state of `kodi::addon::CStructHdl`
(AddonBase.h lines 127-192): the wrapped record address `m_cStructure` and
the ownership flag `m_owner`.  The wrapped records themselves live in a
`SHeap`. -/
structure CStructHdl where
  m_cStructure : Nat
  m_owner : Bool
deriving DecidableEq

/-- Embeds the default constructor `CStructHdl()` (line 131): allocates a
default-constructed record and owns it. -/
def CStructHdl.mkDefault {α : Type} [Inhabited α] (heap : SHeap α) :
    SHeap α × CStructHdl :=
  (SHeap.insert heap (SHeap.fresh heap) default, ⟨SHeap.fresh heap, true⟩)

/-- Embeds the copy constructor `CStructHdl(const CPP_CLASS&)` (lines
133-136): allocates a copy of the other wrapper's record and owns it
(`none` marks the undefined dereference of a dangling source). -/
def CStructHdl.mkFromCpp {α : Type} (heap : SHeap α) (cppClass : CStructHdl) :
    Option (SHeap α × CStructHdl) :=
  match SHeap.find heap cppClass.m_cStructure with
  | some v => some (SHeap.insert heap (SHeap.fresh heap) v, ⟨SHeap.fresh heap, true⟩)
  | none => none

/-- Embeds `CStructHdl(const C_STRUCT*)` (line 138): allocates a copy of the
pointed-to record and owns it. -/
def CStructHdl.mkFromConstPtr {α : Type} (heap : SHeap α) (cStructure : Nat) :
    Option (SHeap α × CStructHdl) :=
  match SHeap.find heap cStructure with
  | some v => some (SHeap.insert heap (SHeap.fresh heap) v, ⟨SHeap.fresh heap, true⟩)
  | none => none

/-- Embeds `CStructHdl(C_STRUCT*)` (line 140): aliases the caller's record in
place; `m_owner` keeps its initializer value `false`. -/
def CStructHdl.mkFromPtr (cStructure : Nat) : CStructHdl :=
  ⟨cStructure, false⟩

/-- Embeds `CStructHdl::operator=(const CStructHdl&)` (lines 142-157): with a
non-null, non-owned destination pointer the source record is `memcpy`ed into
the destination record in place; otherwise an owned record is deleted first
and a fresh copy of the source record is allocated, the wrapper now owning
it.  `none` marks the undefined dereference of a dangling source pointer. -/
def CStructHdl.assign {α : Type} (heap : SHeap α) (dest src : CStructHdl) :
    Option (SHeap α × CStructHdl) :=
  if dest.m_cStructure ≠ 0 ∧ dest.m_owner = false then
    match SHeap.find heap src.m_cStructure with
    | some v => some (SHeap.update heap dest.m_cStructure v, dest)
    | none => none
  else
    let heap1 := if dest.m_owner then SHeap.erase heap dest.m_cStructure else heap
    match SHeap.find heap1 src.m_cStructure with
    | some v =>
      some (SHeap.insert heap1 (SHeap.fresh heap1) v, ⟨SHeap.fresh heap1, true⟩)
    | none => none

/-- The possible readings of the host-owned bytes behind a setting-value
pointer, one per reinterpretation that `CSettingValue` offers. -/
structure RawSettingValue where
  asString : String
  asInt : Int
  asUInt : Nat
  asBool : Bool
  asFloat : Float

/-- Embeds `kodi::CSettingValue` (AddonBase.h lines 34-48): a read-only view
over a host-owned value pointer; `none` models the null pointer. -/
structure CSettingValue where
  m_settingValue : Option RawSettingValue

/-- Embeds `CSettingValue::empty` (line 39): a null test, total. -/
def CSettingValue.empty (v : CSettingValue) : Bool :=
  v.m_settingValue.isNone

/-- Embeds `CSettingValue::GetString` (line 40): unguarded dereference,
`none` when the pointer is null (undefined behaviour in the source). -/
def CSettingValue.GetString (v : CSettingValue) : Option String :=
  v.m_settingValue.map fun r => r.asString

/-- Embeds `CSettingValue::GetInt` (line 41): unguarded dereference. -/
def CSettingValue.GetInt (v : CSettingValue) : Option Int :=
  v.m_settingValue.map fun r => r.asInt

/-- Embeds `CSettingValue::GetUInt` (line 42): unguarded dereference. -/
def CSettingValue.GetUInt (v : CSettingValue) : Option Nat :=
  v.m_settingValue.map fun r => r.asUInt

/-- Embeds `CSettingValue::GetBoolean` (line 43): unguarded dereference. -/
def CSettingValue.GetBoolean (v : CSettingValue) : Option Bool :=
  v.m_settingValue.map fun r => r.asBool

/-- Embeds `CSettingValue::GetFloat` (line 44): unguarded dereference. -/
def CSettingValue.GetFloat (v : CSettingValue) : Option Float :=
  v.m_settingValue.map fun r => r.asFloat

/-- Claim C5: TranslateAddonStatus is total: each of the seven defined status
codes (OK, LOST_CONNECTION, NEED_RESTART, NEED_SETTINGS, UNKNOWN,
PERMANENT_FAILURE, NOT_IMPLEMENTED) maps to a fixed non-empty human-readable
label, and every value outside the defined codes maps to "Unknown". -/
theorem translateAddonStatus_total :
    ((TranslateAddonStatus ADDON_STATUS_OK = "OK" ∧
      TranslateAddonStatus ADDON_STATUS_LOST_CONNECTION = "Lost Connection" ∧
      TranslateAddonStatus ADDON_STATUS_NEED_RESTART = "Need Restart" ∧
      TranslateAddonStatus ADDON_STATUS_NEED_SETTINGS = "Need Settings" ∧
      TranslateAddonStatus ADDON_STATUS_UNKNOWN = "Unknown error" ∧
      TranslateAddonStatus ADDON_STATUS_PERMANENT_FAILURE = "Permanent failure" ∧
      TranslateAddonStatus ADDON_STATUS_NOT_IMPLEMENTED = "Not implemented") ∧
     (∀ s ∈ definedAddonStatuses, TranslateAddonStatus s ≠ "")) ∧
    (∀ s : Int, s ∉ definedAddonStatuses → TranslateAddonStatus s = "Unknown") := by
  refine ⟨⟨by decide, by decide⟩, ?_⟩
  intro s hs
  simp only [definedAddonStatuses, List.mem_cons, List.not_mem_nil, or_false, not_or] at hs
  obtain ⟨h0, h1, h2, h3, h4, h5, h6⟩ := hs
  simp [TranslateAddonStatus, h0, h1, h2, h3, h4, h5, h6]

/-- Claim C5 witness: the defined code NEED_RESTART maps to its label, and
the undefined code 42 maps to "Unknown". -/
theorem translateAddonStatus_total_witness :
    TranslateAddonStatus 42 = "Unknown" ∧
    TranslateAddonStatus ADDON_STATUS_NEED_RESTART = "Need Restart" :=
  ⟨translateAddonStatus_total.2 42 (by decide),
   translateAddonStatus_total.1.1.2.2.1⟩

/-- Claim C1: for every dispatched instance-creation call, if after trying
the parent's and then the base object's creation hook the output instance
handle is null, or the created object's recorded type tag differs from the
requested type tag, a fatal logic error is raised; otherwise the requested
identifier string is stamped into the created instance's id field and the
hook's status code is returned to the host. -/
theorem createInstance_null_or_mismatch_fatal_else_stamped
    (parentHook : Option CreateHook) (baseHook : CreateHook)
    (instanceType : Int) (instanceID : String) (kodiInstance : Nat)
    (version : String) (addonInstance0 : Nat) (heap : SHeap IAddonInstance)
    (s : Int) (h : Nat) (heap1 : SHeap IAddonInstance)
    (hrun : runCreateHooks parentHook baseHook instanceType instanceID
      kodiInstance version addonInstance0 heap = (s, h, heap1)) :
    (h = 0 →
      ADDONBASE_CreateInstance parentHook baseHook instanceType instanceID
        kodiInstance version addonInstance0 heap =
        CreateResult.fatal emptyInstanceMsg) ∧
    (∀ obj, h ≠ 0 → SHeap.find heap1 h = some obj →
      obj.m_type ≠ instanceType →
      ADDONBASE_CreateInstance parentHook baseHook instanceType instanceID
        kodiInstance version addonInstance0 heap =
        CreateResult.fatal createTypeMismatchMsg) ∧
    (∀ obj, h ≠ 0 → SHeap.find heap1 h = some obj →
      obj.m_type = instanceType →
      ADDONBASE_CreateInstance parentHook baseHook instanceType instanceID
        kodiInstance version addonInstance0 heap =
        CreateResult.ok s h (SHeap.update heap1 h { obj with m_id := instanceID })) := by
  refine ⟨?_, ?_, ?_⟩
  · intro h0
    simp [ADDONBASE_CreateInstance, hrun, finishCreate, h0]
  · intro obj hne hfind hty
    simp [ADDONBASE_CreateInstance, hrun, finishCreate, hne, hfind, hty]
  · intro obj hne hfind hty
    simp [ADDONBASE_CreateInstance, hrun, finishCreate, hne, hfind, hty]

/-- Claim C1 witness: a base hook that allocates instance 7 of type 5 and
returns OK; the dispatcher stamps the requested id "id1" into it and returns
OK, and a hook combination leaving the handle null is fatal. -/
theorem createInstance_null_or_mismatch_fatal_else_stamped_witness :
    ADDONBASE_CreateInstance none
      (fun _ _ _ _ _ _ =>
        (ADDON_STATUS_OK, 7, [(7, IAddonInstance.mk 5 "5.0.0" "old")]))
      5 "id1" 3 "5.0.0" 0 [] =
      CreateResult.ok ADDON_STATUS_OK 7 [(7, IAddonInstance.mk 5 "5.0.0" "id1")] :=
  (createInstance_null_or_mismatch_fatal_else_stamped none
    (fun _ _ _ _ _ _ =>
      (ADDON_STATUS_OK, 7, [(7, IAddonInstance.mk 5 "5.0.0" "old")]))
    5 "id1" 3 "5.0.0" 0 [] ADDON_STATUS_OK 7
    [(7, IAddonInstance.mk 5 "5.0.0" "old")] (by decide)).2.2
    (IAddonInstance.mk 5 "5.0.0" "old") (by decide) (by decide) (by decide)

/-- Claim C9: the dispatcher's null-handle and type-tag checks and the id
stamping are applied unconditionally on the hook chain's status code: if the
hooks end with the out handle null, the dispatcher raises the fatal empty
instance error instead of propagating the (possibly failing) status; and any
status accompanied by a non-null, type-matching handle is returned to the
host only with the identifier stamped onto that instance. -/
theorem createInstance_checks_ignore_status
    (parentHook baseHook : CreateHook) (instanceType : Int)
    (instanceID : String) (kodiInstance : Nat) (version : String)
    (addonInstance0 : Nat) (heap : SHeap IAddonInstance) :
    (∀ ph pheap s2 heap2,
      parentHook instanceType instanceID kodiInstance version addonInstance0 heap
        = (ADDON_STATUS_NOT_IMPLEMENTED, ph, pheap) →
      baseHook instanceType instanceID kodiInstance version ph pheap
        = (s2, 0, heap2) →
      ADDONBASE_CreateInstance (some parentHook) baseHook instanceType
        instanceID kodiInstance version addonInstance0 heap =
        CreateResult.fatal emptyInstanceMsg) ∧
    (∀ s1 pheap, s1 ≠ ADDON_STATUS_NOT_IMPLEMENTED →
      parentHook instanceType instanceID kodiInstance version addonInstance0 heap
        = (s1, 0, pheap) →
      ADDONBASE_CreateInstance (some parentHook) baseHook instanceType
        instanceID kodiInstance version addonInstance0 heap =
        CreateResult.fatal emptyInstanceMsg) ∧
    (∀ s2 h2 heap2 obj,
      runCreateHooks (some parentHook) baseHook instanceType instanceID
        kodiInstance version addonInstance0 heap = (s2, h2, heap2) →
      h2 ≠ 0 → SHeap.find heap2 h2 = some obj → obj.m_type = instanceType →
      ADDONBASE_CreateInstance (some parentHook) baseHook instanceType
        instanceID kodiInstance version addonInstance0 heap =
        CreateResult.ok s2 h2
          (SHeap.update heap2 h2 { obj with m_id := instanceID })) := by
  refine ⟨?_, ?_, ?_⟩
  · intro ph pheap s2 heap2 hp hb
    simp [ADDONBASE_CreateInstance, runCreateHooks, hp, hb, finishCreate]
  · intro s1 pheap hs1 hp
    simp [ADDONBASE_CreateInstance, runCreateHooks, hp, hs1, finishCreate]
  · intro s2 h2 heap2 obj hrun hne hfind hty
    simp [ADDONBASE_CreateInstance, hrun, finishCreate, hne, hfind, hty]

/-- Claim C9 witness: a parent hook declining with NOT_IMPLEMENTED and a base
hook failing with PERMANENT_FAILURE while leaving the handle null yield the
fatal empty-instance error, not the failure status. -/
theorem createInstance_checks_ignore_status_witness :
    ADDONBASE_CreateInstance
      (some (fun _ _ _ _ a0 hp => (ADDON_STATUS_NOT_IMPLEMENTED, a0, hp)))
      (fun _ _ _ _ _ hp => (ADDON_STATUS_PERMANENT_FAILURE, 0, hp))
      5 "id1" 3 "5.0.0" 0 [] = CreateResult.fatal emptyInstanceMsg :=
  (createInstance_checks_ignore_status
    (fun _ _ _ _ a0 hp => (ADDON_STATUS_NOT_IMPLEMENTED, a0, hp))
    (fun _ _ _ _ _ hp => (ADDON_STATUS_PERMANENT_FAILURE, 0, hp))
    5 "id1" 3 "5.0.0" 0 []).1 0 [] ADDON_STATUS_PERMANENT_FAILURE []
    (by decide) (by decide)

/-- Claim C3: with a non-null parent handle the parent instance's
CreateInstance hook is tried first, and the base object's hook is invoked
exactly when the parent's hook returned NOT_IMPLEMENTED (the result is then
independent of the base hook otherwise); with a null parent the base hook is
invoked directly; the default IAddonInstance hook always returns
NOT_IMPLEMENTED. -/
theorem createInstance_parent_first_base_fallback
    (parentHook baseHook : CreateHook) (instanceType : Int)
    (instanceID : String) (kodiInstance : Nat) (version : String)
    (addonInstance0 : Nat) (heap : SHeap IAddonInstance) :
    (∀ s2 h2 heap2,
      baseHook instanceType instanceID kodiInstance version addonInstance0 heap
        = (s2, h2, heap2) →
      ADDONBASE_CreateInstance none baseHook instanceType instanceID
        kodiInstance version addonInstance0 heap =
        finishCreate instanceType instanceID s2 h2 heap2) ∧
    (∀ s1 h1 heap1,
      parentHook instanceType instanceID kodiInstance version addonInstance0 heap
        = (s1, h1, heap1) →
      s1 ≠ ADDON_STATUS_NOT_IMPLEMENTED →
      ∀ b : CreateHook,
        ADDONBASE_CreateInstance (some parentHook) b instanceType instanceID
          kodiInstance version addonInstance0 heap =
          finishCreate instanceType instanceID s1 h1 heap1) ∧
    (∀ s1 h1 heap1,
      parentHook instanceType instanceID kodiInstance version addonInstance0 heap
        = (s1, h1, heap1) →
      s1 = ADDON_STATUS_NOT_IMPLEMENTED →
      ∀ s2 h2 heap2,
        baseHook instanceType instanceID kodiInstance version h1 heap1
          = (s2, h2, heap2) →
        ADDONBASE_CreateInstance (some parentHook) baseHook instanceType
          instanceID kodiInstance version addonInstance0 heap =
          finishCreate instanceType instanceID s2 h2 heap2) ∧
    (IAddonInstance.CreateInstance instanceType instanceID kodiInstance version
      addonInstance0 heap = (ADDON_STATUS_NOT_IMPLEMENTED, addonInstance0, heap)) := by
  refine ⟨?_, ?_, ?_, rfl⟩
  · intro s2 h2 heap2 hb
    simp [ADDONBASE_CreateInstance, runCreateHooks, hb]
  · intro s1 h1 heap1 hp hs1 b
    simp [ADDONBASE_CreateInstance, runCreateHooks, hp, hs1]
  · intro s1 h1 heap1 hp hs1 s2 h2 heap2 hb
    simp [ADDONBASE_CreateInstance, runCreateHooks, hp, hs1, hb]

/-- Claim C3 witness: a parent hook that handles creation itself (returns OK
with instance 9 of the right type) short-circuits the chain, for any base
hook whatsoever — here one that would have produced instance 7. -/
theorem createInstance_parent_first_base_fallback_witness :
    ADDONBASE_CreateInstance
      (some (fun _ _ _ _ _ _ =>
        (ADDON_STATUS_OK, 9, [(9, IAddonInstance.mk 5 "5.0.0" "p")])))
      (fun _ _ _ _ _ _ =>
        (ADDON_STATUS_OK, 7, [(7, IAddonInstance.mk 5 "5.0.0" "b")]))
      5 "id1" 3 "5.0.0" 0 [] =
      finishCreate 5 "id1" ADDON_STATUS_OK 9 [(9, IAddonInstance.mk 5 "5.0.0" "p")] :=
  (createInstance_parent_first_base_fallback
    (fun _ _ _ _ _ _ =>
      (ADDON_STATUS_OK, 9, [(9, IAddonInstance.mk 5 "5.0.0" "p")]))
    (fun _ _ _ _ _ _ =>
      (ADDON_STATUS_OK, 7, [(7, IAddonInstance.mk 5 "5.0.0" "b")]))
    5 "id1" 3 "5.0.0" 0 []).2.1 ADDON_STATUS_OK 9
    [(9, IAddonInstance.mk 5 "5.0.0" "p")] (by decide) (by decide)
    (fun _ _ _ _ _ _ =>
      (ADDON_STATUS_OK, 7, [(7, IAddonInstance.mk 5 "5.0.0" "b")]))

/-- Claim C4: in single-default-instance mode, a creation request whose host
handle equals the load-time `firstKodiInstance` and whose requested type tag
equals the stored global single instance's recorded type tag returns that
same stored instance with status OK, without invoking the general creation
path; at the dispatcher level the stored instance comes back stamped with the
requested identifier. -/
theorem createInstance_single_default_instance
    (iface : AddonGlobalInterface) (heap : SHeap IAddonInstance)
    (instanceType : Int) (instanceID version : String)
    (kodiInstance addonInstance0 : Nat) (g : IAddonInstance)
    (hfirst : iface.firstKodiInstance = kodiInstance)
    (hcfg : iface.globalSingleInstance ≠ 0)
    (hfind : SHeap.find heap iface.globalSingleInstance = some g)
    (hty : g.m_type = instanceType) :
    CAddonBase.CreateInstance iface instanceType instanceID kodiInstance
      version addonInstance0 heap =
      (ADDON_STATUS_OK, iface.globalSingleInstance, heap) ∧
    ADDONBASE_CreateInstance none (CAddonBase.CreateInstance iface)
      instanceType instanceID kodiInstance version addonInstance0 heap =
      CreateResult.ok ADDON_STATUS_OK iface.globalSingleInstance
        (SHeap.update heap iface.globalSingleInstance
          { g with m_id := instanceID }) := by
  have hbase : CAddonBase.CreateInstance iface instanceType instanceID
      kodiInstance version addonInstance0 heap =
      (ADDON_STATUS_OK, iface.globalSingleInstance, heap) := by
    simp [CAddonBase.CreateInstance, hfirst, hcfg, hfind, hty]
  refine ⟨hbase, ?_⟩
  simp [ADDONBASE_CreateInstance, runCreateHooks, hbase, finishCreate,
    hcfg, hfind, hty]

/-- Claim C4 witness: interface loaded with host handle 3, global single
instance at address 9 of type 5; a request from handle 3 for type 5 returns
instance 9 with OK, and the dispatcher stamps the id. -/
theorem createInstance_single_default_instance_witness :
    CAddonBase.CreateInstance (AddonGlobalInterface.mk 3 9 1) 5 "id1" 3
      "5.0.0" 0 [(9, IAddonInstance.mk 5 "5.0.0" "x")] =
      (ADDON_STATUS_OK, 9, [(9, IAddonInstance.mk 5 "5.0.0" "x")]) ∧
    ADDONBASE_CreateInstance none
      (CAddonBase.CreateInstance (AddonGlobalInterface.mk 3 9 1)) 5 "id1" 3
      "5.0.0" 0 [(9, IAddonInstance.mk 5 "5.0.0" "x")] =
      CreateResult.ok ADDON_STATUS_OK 9 [(9, IAddonInstance.mk 5 "5.0.0" "id1")] :=
  createInstance_single_default_instance (AddonGlobalInterface.mk 3 9 1)
    [(9, IAddonInstance.mk 5 "5.0.0" "x")] 5 "id1" "5.0.0" 3 0
    (IAddonInstance.mk 5 "5.0.0" "x") (by decide) (by decide) (by decide)
    (by decide)

/-- Claim C2: in multi-instance mode (null global single instance) with a
handle different from the base object, a matching recorded type tag makes the
dispatcher invoke the base object's DestroyInstance hook with the instance's
stored identifier and then delete the instance; a differing tag raises the
fatal type-mismatch logic error; with a configured global single instance, or
a handle equal to the base object, the call is a no-op. -/
theorem destroyInstance_dispatch_spec (iface : AddonGlobalInterface)
    (heap : SHeap IAddonInstance) (instanceType : Int) (kodiInstance : Nat) :
    (∀ obj, iface.globalSingleInstance = 0 → kodiInstance ≠ iface.addonBase →
      SHeap.find heap kodiInstance = some obj → obj.m_type = instanceType →
      ADDONBASE_DestroyInstance iface heap instanceType kodiInstance =
        DestroyResult.destroyed instanceType obj.m_id kodiInstance
          (SHeap.erase heap kodiInstance)) ∧
    (∀ obj, iface.globalSingleInstance = 0 → kodiInstance ≠ iface.addonBase →
      SHeap.find heap kodiInstance = some obj → obj.m_type ≠ instanceType →
      ADDONBASE_DestroyInstance iface heap instanceType kodiInstance =
        DestroyResult.fatal destroyTypeMismatchMsg) ∧
    (iface.globalSingleInstance ≠ 0 →
      ADDONBASE_DestroyInstance iface heap instanceType kodiInstance =
        DestroyResult.noop) ∧
    (kodiInstance = iface.addonBase →
      ADDONBASE_DestroyInstance iface heap instanceType kodiInstance =
        DestroyResult.noop) := by
  refine ⟨?_, ?_, ?_, ?_⟩
  · intro obj hsingle hne hfind hty
    simp [ADDONBASE_DestroyInstance, hsingle, hne, hfind, hty]
  · intro obj hsingle hne hfind hty
    simp [ADDONBASE_DestroyInstance, hsingle, hne, hfind, hty]
  · intro hsingle
    simp [ADDONBASE_DestroyInstance, hsingle]
  · intro heq
    simp [ADDONBASE_DestroyInstance, heq]

/-- Claim C2 witness: multi-instance mode, instance 7 of type 5 with stored
id "id1": destroying with tag 5 calls the hook with "id1" and erases the
binding; destroying with tag 6 is the fatal type mismatch. -/
theorem destroyInstance_dispatch_spec_witness :
    ADDONBASE_DestroyInstance (AddonGlobalInterface.mk 3 0 1)
      [(7, IAddonInstance.mk 5 "5.0.0" "id1")] 5 7 =
      DestroyResult.destroyed 5 "id1" 7 [] ∧
    ADDONBASE_DestroyInstance (AddonGlobalInterface.mk 3 0 1)
      [(7, IAddonInstance.mk 5 "5.0.0" "id1")] 6 7 =
      DestroyResult.fatal destroyTypeMismatchMsg :=
  ⟨(destroyInstance_dispatch_spec (AddonGlobalInterface.mk 3 0 1)
      [(7, IAddonInstance.mk 5 "5.0.0" "id1")] 5 7).1
      (IAddonInstance.mk 5 "5.0.0" "id1") (by decide) (by decide) (by decide)
      (by decide),
   (destroyInstance_dispatch_spec (AddonGlobalInterface.mk 3 0 1)
      [(7, IAddonInstance.mk 5 "5.0.0" "id1")] 6 7).2.1
      (IAddonInstance.mk 5 "5.0.0" "id1") (by decide) (by decide) (by decide)
      (by decide)⟩

/-- Claim C7: for GetAddonPath and GetBaseUserPath, an empty append returns
the host path unchanged; a non-empty append whose first character is neither
a slash nor a backslash gets the platform separator inserted between host
path and append; an append already starting with a separator is concatenated
directly. -/
theorem path_append_separator (windows : Bool) (hostPath append : String) :
    (append = "" →
      GetAddonPath windows hostPath append = hostPath ∧
      GetBaseUserPath windows hostPath append = hostPath) ∧
    (append ≠ "" → append.front ≠ '\\' → append.front ≠ '/' →
      GetAddonPath windows hostPath append =
        (hostPath ++ kodiPathSeparator windows) ++ append ∧
      GetBaseUserPath windows hostPath append =
        (hostPath ++ kodiPathSeparator windows) ++ append) ∧
    (append ≠ "" → (append.front = '\\' ∨ append.front = '/') →
      GetAddonPath windows hostPath append = hostPath ++ append ∧
      GetBaseUserPath windows hostPath append = hostPath ++ append) := by
  refine ⟨?_, ?_, ?_⟩
  · intro he
    simp [GetAddonPath, GetBaseUserPath, he]
  · intro hne h1 h2
    simp [GetAddonPath, GetBaseUserPath, hne, h1, h2]
  · intro hne hsep
    rcases hsep with h | h <;>
      simp [GetAddonPath, GetBaseUserPath, hne, h]

/-- Claim C7 witness: on the non-Windows branch, appending "sub" to "/base"
inserts "/", appending "/sub" does not, and an empty append is identity. -/
theorem path_append_separator_witness :
    GetAddonPath false "/base" "sub" = ("/base" ++ kodiPathSeparator false) ++ "sub" ∧
    GetBaseUserPath false "/base" "/sub" = "/base" ++ "/sub" ∧
    GetAddonPath false "/base" "" = "/base" :=
  ⟨((path_append_separator false "/base" "sub").2.1 (by decide) (by decide)
      (by decide)).1,
   ((path_append_separator false "/base" "/sub").2.2 (by decide)
      (Or.inr (by decide))).2,
   ((path_append_separator false "/base" "").1 rfl).1⟩

/-- Claim C8: the aliasing (non-const raw pointer) constructor produces a
non-owning wrapper and the default / copy / const-pointer constructors an
owning one; assignment to a non-owning wrapper copies the source record into
the aliased record in place leaving the wrapped address unchanged, while
assignment to an owning wrapper deletes the owned record and replaces it with
a freshly allocated copy of the source record, the wrapper owning
afterwards. -/
theorem structHdl_assign_modes {α : Type} [Inhabited α] (heap : SHeap α)
    (dest src : CStructHdl) (v : α) (p : Nat) :
    ((CStructHdl.mkFromPtr p).m_owner = false ∧
     (CStructHdl.mkFromPtr p).m_cStructure = p) ∧
    ((CStructHdl.mkDefault (α := α) heap).2.m_owner = true) ∧
    (∀ heap2 w, CStructHdl.mkFromCpp heap src = some (heap2, w) →
      w.m_owner = true) ∧
    (∀ heap2 w, CStructHdl.mkFromConstPtr heap p = some (heap2, w) →
      w.m_owner = true) ∧
    (dest.m_owner = false → dest.m_cStructure ≠ 0 →
      SHeap.find heap src.m_cStructure = some v →
      CStructHdl.assign heap dest src =
        some (SHeap.update heap dest.m_cStructure v, dest)) ∧
    (dest.m_owner = true →
      SHeap.find (SHeap.erase heap dest.m_cStructure) src.m_cStructure = some v →
      CStructHdl.assign heap dest src =
        some (SHeap.insert (SHeap.erase heap dest.m_cStructure)
            (SHeap.fresh (SHeap.erase heap dest.m_cStructure)) v,
          CStructHdl.mk (SHeap.fresh (SHeap.erase heap dest.m_cStructure)) true)) := by
  refine ⟨⟨rfl, rfl⟩, rfl, ?_, ?_, ?_, ?_⟩
  · intro heap2 w hmk
    unfold CStructHdl.mkFromCpp at hmk
    rcases hfind : SHeap.find heap src.m_cStructure with _ | u <;>
      simp [hfind] at hmk
    exact hmk.2.symm ▸ rfl
  · intro heap2 w hmk
    unfold CStructHdl.mkFromConstPtr at hmk
    rcases hfind : SHeap.find heap p with _ | u <;> simp [hfind] at hmk
    exact hmk.2.symm ▸ rfl
  · intro hown hne hfind
    simp [CStructHdl.assign, hown, hne, hfind]
  · intro hown hfind
    simp [CStructHdl.assign, hown, hfind]

/-- Claim C8 witness: over `Nat` records, assigning into an alias of address
2 overwrites record 2 in place keeping the address, and assigning into an
owner of address 2 deletes it and allocates a fresh owned copy. -/
theorem structHdl_assign_modes_witness :
    CStructHdl.assign [(1, (10 : Nat)), (2, 20)] (CStructHdl.mk 2 false)
      (CStructHdl.mk 1 false) =
      some ([(1, (10 : Nat)), (2, 10)], CStructHdl.mk 2 false) ∧
    CStructHdl.assign [(1, (10 : Nat)), (2, 20)] (CStructHdl.mk 2 true)
      (CStructHdl.mk 1 false) =
      some ([(2, (10 : Nat)), (1, 10)], CStructHdl.mk 2 true) :=
  ⟨(structHdl_assign_modes [(1, (10 : Nat)), (2, 20)] (CStructHdl.mk 2 false)
      (CStructHdl.mk 1 false) 10 0).2.2.2.2.1 rfl (by decide) (by decide),
   (structHdl_assign_modes [(1, (10 : Nat)), (2, 20)] (CStructHdl.mk 2 true)
      (CStructHdl.mk 1 false) 10 0).2.2.2.2.2 rfl (by decide)⟩

/-- Claim C6 counterexample: AddonBase.h declares checked-get / convenience
accessor pairs for exactly four C value types — string, int, boolean,
float — and none for unsigned, so the claim's five-type inventory is false. -/
theorem settingAccessors_no_unsigned :
    settingAccessorCTypes.length = 4 ∧ "unsigned" ∉ settingAccessorCTypes := by
  decide

/-- Claim C6 (amended to the four provided types): for each of string, int,
bool and float there is a checked-get returning the host's success flag and
filling the output, and a convenience get that returns the type's default
value (empty string, 0, false, 0.0) whenever the host's checked-get reports
failure without writing, and the host-filled value whenever it reports
success. -/
theorem settingAccessors_checked_and_convenience
    (toKodi : AddonToKodiFuncTable_Addon) (settingName : String) :
    ((toKodi.get_setting_string settingName).1 = false →
      (CheckSettingString toKodi settingName "").1 = false ∧
      GetSettingString toKodi settingName = "") ∧
    (∀ b, toKodi.get_setting_string settingName = (true, some b) →
      CheckSettingString toKodi settingName "" = (true, b) ∧
      GetSettingString toKodi settingName = b) ∧
    (toKodi.get_setting_int settingName = (false, none) →
      CheckSettingInt toKodi settingName 0 = (false, 0) ∧
      GetSettingInt toKodi settingName = 0) ∧
    (∀ v, toKodi.get_setting_int settingName = (true, some v) →
      CheckSettingInt toKodi settingName 0 = (true, v) ∧
      GetSettingInt toKodi settingName = v) ∧
    (toKodi.get_setting_bool settingName = (false, none) →
      CheckSettingBoolean toKodi settingName false = (false, false) ∧
      GetSettingBoolean toKodi settingName = false) ∧
    (∀ v, toKodi.get_setting_bool settingName = (true, some v) →
      CheckSettingBoolean toKodi settingName false = (true, v) ∧
      GetSettingBoolean toKodi settingName = v) ∧
    (toKodi.get_setting_float settingName = (false, none) →
      CheckSettingFloat toKodi settingName 0.0 = (false, 0.0) ∧
      GetSettingFloat toKodi settingName = 0.0) ∧
    (∀ v, toKodi.get_setting_float settingName = (true, some v) →
      CheckSettingFloat toKodi settingName 0.0 = (true, v) ∧
      GetSettingFloat toKodi settingName = v) := by
  refine ⟨?_, ?_, ?_, ?_, ?_, ?_, ?_, ?_⟩
  · intro hflag
    rcases hbuf : (toKodi.get_setting_string settingName).2 with _ | b <;>
      simp [CheckSettingString, GetSettingString, hflag, hbuf]
  · intro b hhost
    simp [CheckSettingString, GetSettingString, hhost]
  · intro hhost
    simp [CheckSettingInt, GetSettingInt, hhost]
  · intro v hhost
    simp [CheckSettingInt, GetSettingInt, hhost]
  · intro hhost
    simp [CheckSettingBoolean, GetSettingBoolean, hhost]
  · intro v hhost
    simp [CheckSettingBoolean, GetSettingBoolean, hhost]
  · intro hhost
    simp [CheckSettingFloat, GetSettingFloat, hhost]
  · intro v hhost
    simp [CheckSettingFloat, GetSettingFloat, hhost]

/-- Claim C6 witness: a concrete host table succeeding on the string and int
getters and failing on the bool and float getters; the convenience getters
return the host values and the defaults respectively. -/
theorem settingAccessors_checked_and_convenience_witness :
    GetSettingString
      (AddonToKodiFuncTable_Addon.mk (fun _ => (true, some "val"))
        (fun _ => (true, some 11)) (fun _ => (false, none))
        (fun _ => (false, none))) "name" = "val" ∧
    GetSettingInt
      (AddonToKodiFuncTable_Addon.mk (fun _ => (true, some "val"))
        (fun _ => (true, some 11)) (fun _ => (false, none))
        (fun _ => (false, none))) "name" = 11 ∧
    GetSettingBoolean
      (AddonToKodiFuncTable_Addon.mk (fun _ => (true, some "val"))
        (fun _ => (true, some 11)) (fun _ => (false, none))
        (fun _ => (false, none))) "name" = false ∧
    GetSettingFloat
      (AddonToKodiFuncTable_Addon.mk (fun _ => (true, some "val"))
        (fun _ => (true, some 11)) (fun _ => (false, none))
        (fun _ => (false, none))) "name" = 0.0 :=
  ⟨((settingAccessors_checked_and_convenience
      (AddonToKodiFuncTable_Addon.mk (fun _ => (true, some "val"))
        (fun _ => (true, some 11)) (fun _ => (false, none))
        (fun _ => (false, none))) "name").2.1 "val" rfl).2,
   ((settingAccessors_checked_and_convenience
      (AddonToKodiFuncTable_Addon.mk (fun _ => (true, some "val"))
        (fun _ => (true, some 11)) (fun _ => (false, none))
        (fun _ => (false, none))) "name").2.2.2.1 11 rfl).2,
   ((settingAccessors_checked_and_convenience
      (AddonToKodiFuncTable_Addon.mk (fun _ => (true, some "val"))
        (fun _ => (true, some 11)) (fun _ => (false, none))
        (fun _ => (false, none))) "name").2.2.2.2.1 rfl).2,
   ((settingAccessors_checked_and_convenience
      (AddonToKodiFuncTable_Addon.mk (fun _ => (true, some "val"))
        (fun _ => (true, some 11)) (fun _ => (false, none))
        (fun _ => (false, none))) "name").2.2.2.2.2.2.1 rfl).2⟩

/-- Claim C10: CSettingValue's empty test is total on a null underlying
pointer, while every typed getter dereferences the stored pointer with no
null check: each getter is undefined (none) exactly on the null pointer, so
typed extraction is well-defined precisely when empty() is false. -/
theorem settingValue_empty_total_getters_guarded (v : CSettingValue) :
    (v.empty = true ↔ v.m_settingValue = none) ∧
    (v.empty = true →
      v.GetString = none ∧ v.GetInt = none ∧ v.GetUInt = none ∧
      v.GetBoolean = none ∧ v.GetFloat = none) ∧
    (v.empty = false →
      (v.GetString).isSome = true ∧ (v.GetInt).isSome = true ∧
      (v.GetUInt).isSome = true ∧ (v.GetBoolean).isSome = true ∧
      (v.GetFloat).isSome = true) := by
  rcases v with ⟨_ | r⟩ <;>
    simp [CSettingValue.empty, CSettingValue.GetString, CSettingValue.GetInt,
      CSettingValue.GetUInt, CSettingValue.GetBoolean, CSettingValue.GetFloat]

/-- Claim C10 witness: the null view is empty and every typed getter is
undefined on it; a non-null view is not empty and the getters succeed. -/
theorem settingValue_empty_total_getters_guarded_witness :
    (CSettingValue.mk none).empty = true ∧
    (CSettingValue.mk none).GetInt = none ∧
    (CSettingValue.mk (some (RawSettingValue.mk "s" 1 2 true 1.5))).empty = false ∧
    (CSettingValue.mk (some (RawSettingValue.mk "s" 1 2 true 1.5))).GetInt.isSome
      = true :=
  ⟨rfl,
   ((settingValue_empty_total_getters_guarded (CSettingValue.mk none)).2.1
      rfl).2.1,
   rfl,
   ((settingValue_empty_total_getters_guarded
      (CSettingValue.mk (some (RawSettingValue.mk "s" 1 2 true 1.5)))).2.2
      rfl).2.1⟩
